import Mathlib

set_option maxRecDepth 8192

/-!
Shallow embedding of the Job Enrichment & Resume-Matching Pipeline of the
`linkedinautomation` repository, and verification of the frozen claims about it.

The embedding follows the Python source:
  * `src/models/job_model.py` — `JobListing`, `JobAnalysis`, `GoogleSheetRow`
  * `src/services/google_sheets_service.py` — external log (append-only sheet)
  * `src/database/db_manager.py` — primary store merge and the analysis cache
  * `src/services/resume_matcher.py` — scoring tiers and heuristic fallback
  * `src/scrapers/linkedin_scraper_playwright.py` — field extraction

Machine reals (Python floats) that only ever hold ratios of small integers are
modelled as `ℚ`; wall-clock instants are modelled as abstract numeric times.
-/

namespace LinkedInAuto

/-- Python `needle in hay` on strings, at the character-list level:
true iff `n` occurs as a contiguous sublist of `h`. -/
def isInfixL (n : List Char) : List Char → Bool
  | [] => n.isEmpty
  | c :: rest => n.isPrefixOf (c :: rest) || isInfixL n rest

/-- Python `needle in hay` for `str` operands. -/
def pyIn (needle hay : String) : Bool :=
  isInfixL needle.data hay.data

/-- Python slicing `s[:n]` on a `str`: the first `n` characters. -/
def pySlice (s : String) (n : Nat) : String :=
  ⟨s.data.take n⟩

/-- Python `s.lower()`: lower-case character by character. -/
def pyLower (s : String) : String :=
  ⟨s.data.map Char.toLower⟩

/-- Python `s.strip()`: drop whitespace from both ends. -/
def pyStrip (s : String) : String :=
  ⟨((s.data.dropWhile Char.isWhitespace).reverse.dropWhile Char.isWhitespace).reverse⟩

/-- Python truthiness-based `a or b` for `str` values (empty string is falsy). -/
def pyOrStr (a b : String) : String :=
  if a = "" then b else a

/-- Python truthiness-based `a or b` for list values (empty list is falsy). -/
def pyOrList (a b : List String) : List String :=
  if a = [] then b else a

/-- Python truthiness-based `a or b` where `a : Optional[str]`:
`None` and `""` are falsy. -/
def pyOrOptStr (a b : Option String) : Option String :=
  match a with
  | none => b
  | some s => if s = "" then b else some s

/-- Python truthiness-based `a or b` where `a : Optional[float]`:
`None` and `0.0` are falsy. -/
def pyOrScore (a b : Option ℚ) : Option ℚ :=
  match a with
  | none => b
  | some q => if q = 0 then b else some q

/-- A `datetime` value, abstracted to its two `strftime` renderings used by the
sheet row (`"%Y-%m-%d"` and `"%H:%M:%S"`). -/
structure PyDateTime where
  dateStr : String
  timeStr : String
deriving DecidableEq

/-- `models.job_model.JobListing` (pydantic).  Enum-valued fields are carried as
their string values; `url` as its rendered string. -/
structure JobListing where
  job_id : String
  title : String
  company : String
  location : String
  url : Option String := none
  description : String := ""
  requirements : List String := []
  qualifications : List String := []
  responsibilities : List String := []
  benefits : List String := []
  job_type : Option String := none
  experience_level : Option String := none
  level : Option Nat := none
  salary_range : Option String := none
  employment_type : Option String := none
  industry : Option String := none
  company_size : Option String := none
  posted_date : Option String := none
  application_deadline : Option String := none
  applicants_count : Option String := none
  scraped_at : PyDateTime := ⟨"", ""⟩
  source : String := "LinkedIn"
  status : String := "new"
  keywords : List String := []
  skills : List String := []
  resume_match_score : Option ℚ := none
  match_reasons : List String := []
  notes : Option String := none
  tags : List String := []
deriving DecidableEq

/-- A spreadsheet cell value, as sent through the Sheets API
(`to_list` mixes strings, the int `level` and the float `role_match`). -/
inductive Cell where
  | str (s : String)
  | int (n : Int)
  | num (q : ℚ)
deriving DecidableEq

/-- Python truthiness of a cell value (`if row and row[0]`). -/
def Cell.truthy : Cell → Bool
  | .str s => s ≠ ""
  | .int n => n ≠ 0
  | .num q => q ≠ 0

/-- `models.job_model.GoogleSheetRow`. -/
structure GoogleSheetRow where
  date : String
  time : String
  role : String
  company : String
  location : String
  job_type : String := ""
  level : Nat := 0
  link : String
  job_responsibilities : String
  preferred_skills : String := ""
  matching_skills : String := ""
  role_match : ℚ := 0
  salary : String := "Not specified"
  posted : String := ""
  number_of_applicants : String := ""
deriving DecidableEq

/-- `GoogleSheetRow.from_job_listing`. -/
def GoogleSheetRow.from_job_listing (job : JobListing) : GoogleSheetRow :=
  -- responsibilities joined with the literal bullet separator of the source,
  -- else the (possibly truncated) description
  let job_responsibilities :=
    if job.responsibilities ≠ [] then
      String.intercalate "\nâ€¢ " (job.responsibilities.take 5)
    else if job.description.length > 500 then
      pySlice job.description 500 ++ "..."
    else job.description
  let job_type_str := match job.job_type with | some v => v | none => ""
  -- requirements mentioning a skill-flavoured word, first three, else skills
  let skill_reqs := job.requirements.filter (fun req =>
    ["skill", "experience", "knowledge", "proficient"].any
      (fun w => pyIn w (pyLower req)))
  let preferred_skills0 :=
    if skill_reqs ≠ [] then String.intercalate ", " (skill_reqs.take 3) else ""
  let preferred_skills :=
    if preferred_skills0 = "" ∧ job.skills ≠ [] then
      String.intercalate ", " job.skills
    else preferred_skills0
  let matching_skills :=
    if job.match_reasons ≠ [] then
      String.intercalate ", " (job.match_reasons.take 5)
    else if job.skills ≠ [] then
      String.intercalate ", " (job.skills.take 5)
    else ""
  { date := job.scraped_at.dateStr
    time := job.scraped_at.timeStr
    role := job.title
    company := job.company
    location := job.location
    job_type := job_type_str
    level := match job.level with | some n => n | none => 0
    link := match job.url with | some u => u | none => ""
    job_responsibilities := job_responsibilities
    preferred_skills := preferred_skills
    matching_skills := matching_skills
    role_match := match job.resume_match_score with
      | some q => if q = 0 then 0 else q
      | none => 0
    salary := match job.salary_range with
      | some s => if s = "" then "Not specified" else s
      | none => "Not specified"
    posted := match job.posted_date with
      | some p => p
      | none => ""
    number_of_applicants := match job.applicants_count with
      | some a => a
      | none => "" }

/-- `GoogleSheetRow.to_list`: the fixed-order 15-cell row sent to the sheet.
Note that no cell carries `job_id`. -/
def GoogleSheetRow.to_list (r : GoogleSheetRow) : List Cell :=
  [.str r.date, .str r.time, .str r.role, .str r.company, .str r.location,
   .str r.job_type, .int r.level, .str r.link, .str r.job_responsibilities,
   .str r.preferred_skills, .str r.matching_skills, .num r.role_match,
   .str r.salary, .str r.posted, .str r.number_of_applicants]

/-- `GoogleSheetRow.get_headers`. -/
def sheetHeaders : List Cell :=
  [.str "Date", .str "Time", .str "Role", .str "Company", .str "Location",
   .str "Job Type", .str "Level", .str "Link", .str "Job Responsibilities:",
   .str "Preferred Skills", .str "Matching Skills", .str "Role Match %",
   .str "Salary", .str "Posted", .str "Number of Applicants"]

/-- A sheet: the header row followed by appended data rows. -/
abbrev Sheet := List (List Cell)

/-- `GoogleSheetsService.check_duplicate`: scan column A below the header for a
cell equal to `job_id` (`if row and row[0] == job_id`). -/
def check_duplicate (sheet : Sheet) (job_id : String) : Bool :=
  (sheet.drop 1).any (fun row =>
    match row.head? with
    | some c => c = Cell.str job_id
    | none => false)

/-- `GoogleSheetsService.add_job`: skip silently when `check_duplicate` holds,
otherwise append the converted row. -/
def sheets_add_job (sheet : Sheet) (job : JobListing) : Sheet :=
  if check_duplicate sheet job.job_id then sheet
  else sheet ++ [(GoogleSheetRow.from_job_listing job).to_list]

/-- `GoogleSheetsService._get_existing_job_ids`: the set of truthy column-A
values below the header (kept as a list; only membership is used). -/
def get_existing_job_ids (sheet : Sheet) : List Cell :=
  ((sheet.drop 1).filterMap (fun row => row.head?)).filter Cell.truthy

/-- `GoogleSheetsService.add_jobs_batch`: fetch the existing identifier set
once, drop the jobs whose `job_id` is in it, append the rest in one batch. -/
def add_jobs_batch (sheet : Sheet) (jobs : List JobListing) : Sheet :=
  if jobs = [] then sheet
  else
    let existing_ids := get_existing_job_ids sheet
    let new_jobs := jobs.filter (fun job => ¬ (Cell.str job.job_id ∈ existing_ids))
    if new_jobs = [] then sheet
    else sheet ++ new_jobs.map (fun job => (GoogleSheetRow.from_job_listing job).to_list)

/-- `database.models.Job` (SQLAlchemy row), restricted to the columns that
`DatabaseManager.add_job` writes.  Wall-clock instants are abstract `Nat`
times; `last_updated` is set by the column default at insert and refreshed by
`_update_job`. -/
structure StoredJob where
  job_id : String
  title : String
  company : String
  location : String
  url : Option String
  description : String
  requirements : List String
  qualifications : List String
  responsibilities : List String
  benefits : List String
  job_type : Option String
  experience_level : Option String
  salary_range : Option String
  employment_type : Option String
  industry : Option String
  company_size : Option String
  posted_date : Option String
  application_deadline : Option String
  applicants_count : Option String
  scraped_at : PyDateTime
  source : String
  status : String
  keywords : List String
  skills : List String
  resume_match_score : Option ℚ
  match_reasons : List String
  notes : Option String
  tags : List String
  last_updated : Nat
deriving DecidableEq

/-- The `Job(...)` constructor call inside `DatabaseManager.add_job` (insert
path); `now` is the insert instant supplying the `last_updated` column
default. -/
def newStoredJob (jl : JobListing) (now : Nat) : StoredJob :=
  { job_id := jl.job_id
    title := jl.title
    company := jl.company
    location := jl.location
    url := jl.url
    description := jl.description
    requirements := jl.requirements
    qualifications := jl.qualifications
    responsibilities := jl.responsibilities
    benefits := jl.benefits
    job_type := jl.job_type
    experience_level := jl.experience_level
    salary_range := jl.salary_range
    employment_type := jl.employment_type
    industry := jl.industry
    company_size := jl.company_size
    posted_date := jl.posted_date
    application_deadline := jl.application_deadline
    applicants_count := jl.applicants_count
    scraped_at := jl.scraped_at
    source := jl.source
    status := jl.status
    keywords := jl.keywords
    skills := jl.skills
    resume_match_score := jl.resume_match_score
    match_reasons := jl.match_reasons
    notes := jl.notes
    tags := jl.tags
    last_updated := now }

/-- `DatabaseManager._update_job`: field-level merge of an incoming listing
into the stored row.  `title`/`company`/`location` are assigned
unconditionally; the remaining merged fields use Python `or`
(truthiness), and `last_updated` is refreshed to the call instant. -/
def update_job (job : StoredJob) (jl : JobListing) (now : Nat) : StoredJob :=
  { job with
    title := jl.title
    company := jl.company
    location := jl.location
    description := pyOrStr jl.description job.description
    requirements := pyOrList jl.requirements job.requirements
    qualifications := pyOrList jl.qualifications job.qualifications
    salary_range := pyOrOptStr jl.salary_range job.salary_range
    applicants_count := pyOrOptStr jl.applicants_count job.applicants_count
    resume_match_score := pyOrScore jl.resume_match_score job.resume_match_score
    keywords := pyOrList jl.keywords job.keywords
    skills := pyOrList jl.skills job.skills
    last_updated := now }

/-- `DatabaseManager.add_job`: the table is a row list; the duplicate check is
`filter_by(job_id=...).first()`, so the first row with a matching `job_id` is
merged in place, and with no match a fresh row is inserted. -/
def db_add_job (jl : JobListing) (now : Nat) : List StoredJob → List StoredJob
  | [] => [newStoredJob jl now]
  | job :: rest =>
    if job.job_id = jl.job_id then update_job job jl now :: rest
    else job :: db_add_job jl now rest

/-- `database.models.AnalysisCache` row.  Times are abstract rationals measured
in hours, so `timedelta(hours=h)` is `+ h`. -/
structure CacheEntry where
  job_id : String
  analysis_type : String
  analysis_result : String
  created_at : ℚ
  expires_at : ℚ
deriving DecidableEq

/-- The cache key predicate `filter_by(job_id=..., analysis_type=...)`. -/
def cacheKeyMatch (job_id analysis_type : String) (e : CacheEntry) : Bool :=
  e.job_id = job_id ∧ e.analysis_type = analysis_type

/-- `DatabaseManager.cache_analysis`: refresh the first row for the key if one
exists (`result`, `expires_at`, `created_at`), otherwise insert a new row;
`expires_at = now + expires_hours`. -/
def cache_analysis (job_id analysis_type : String) (result : String) (now : ℚ)
    (expires_hours : ℕ) : List CacheEntry → List CacheEntry
  | [] => [{ job_id := job_id, analysis_type := analysis_type,
             analysis_result := result, created_at := now,
             expires_at := now + expires_hours }]
  | e :: rest =>
    if cacheKeyMatch job_id analysis_type e then
      { e with analysis_result := result, expires_at := now + expires_hours,
               created_at := now } :: rest
    else e :: cache_analysis job_id analysis_type result now expires_hours rest

/-- `DatabaseManager.get_cached_analysis`: return the first row for the key
only when it has not lazily expired (`expires_at > utcnow()`). -/
def get_cached_analysis (store : List CacheEntry) (job_id analysis_type : String)
    (now : ℚ) : Option String :=
  match store.find? (cacheKeyMatch job_id analysis_type) with
  | some c => if now < c.expires_at then some c.analysis_result else none
  | none => none

/-- `services.resume_matcher.ResumeProfile`, reduced to the two members the
scoring path reads. -/
structure ResumeProfile where
  resume_text : String
  skills : List String
deriving DecidableEq

/-- `models.job_model.JobAnalysis` (pydantic); scores are rationals.  The
`analysis_timestamp` default is irrelevant to scoring and omitted. -/
structure JobAnalysis where
  job_id : String
  technical_skills : List String
  soft_skills : List String
  tools_technologies : List String
  certifications : List String
  overall_match_score : ℚ
  skills_match_score : ℚ
  experience_match_score : ℚ
  missing_skills : List String
  matching_skills : List String
  recommendations : List String
  ai_summary : String
  ai_fit_assessment : String
  interview_tips : List String
deriving DecidableEq

/-- The field bundle a provider response parses into, before pydantic
validation of the score ranges. -/
structure RawAnalysis where
  technical_skills : List String
  soft_skills : List String
  tools_technologies : List String
  certifications : List String
  overall_match_score : ℚ
  skills_match_score : ℚ
  experience_match_score : ℚ
  missing_skills : List String
  matching_skills : List String
  recommendations : List String
  ai_summary : String
  ai_fit_assessment : String
  interview_tips : List String
deriving DecidableEq

/-- A provider call outcome: transport errors, unparseable JSON and the Groq
no-JSON-found branch all surface as `.error`; `.ok` carries the parsed field
bundle. -/
abbrev ProviderResponse := Except String RawAnalysis

/-- `ResumeMatcherService._prepare_job_context`: the triple-quoted f-string,
rendered verbatim (each line carries the 8-space source indentation; the
stray `# Limit to 3000 chars` is inside the literal).  Optional enum fields
render as their value or `Not specified`. -/
def prepare_job_context (profile : ResumeProfile) (job : JobListing) : String :=
  "\n        JOB DETAILS:\n        Title: " ++ job.title ++
  "\n        Company: " ++ job.company ++
  "\n        Location: " ++ job.location ++
  "\n        Type: " ++ (match job.job_type with
    | some t => if t = "" then "Not specified" else t
    | none => "Not specified") ++
  "\n        Experience Level: " ++ (match job.experience_level with
    | some l => if l = "" then "Not specified" else l
    | none => "Not specified") ++
  "\n        \n        Description:\n        " ++ job.description ++
  "\n        \n        Requirements:\n        " ++
    String.intercalate ", " job.requirements ++
  "\n        \n        Qualifications:\n        " ++
    String.intercalate ", " job.qualifications ++
  "\n        \n        Responsibilities:\n        " ++
    String.intercalate ", " job.responsibilities ++
  "\n        \n        CANDIDATE PROFILE:\n        Resume:\n        " ++
    pySlice profile.resume_text 3000 ++ "  # Limit to 3000 chars" ++
  "\n        \n        Known Skills:\n        " ++
    String.intercalate ", " profile.skills ++
  "\n        "

/-- The fixed technical vocabulary of `_create_basic_analysis`. -/
def tech_keywords : List String :=
  ["python", "java", "javascript", "react", "sql", "aws", "docker", "kubernetes"]

/-- The fixed soft-skill vocabulary of `_create_basic_analysis`. -/
def soft_keywords : List String :=
  ["communication", "leadership", "teamwork", "problem-solving"]

/-- `ResumeMatcherService._create_basic_analysis`: the deterministic heuristic
scorer.  Skills are substring hits of the vocabulary in the lowercased
context; matching skills are those also found in the lowercased resume. -/
def create_basic_analysis (profile : ResumeProfile) (job_context : String) : JobAnalysis :=
  let job_lower := pyLower job_context
  let technical_skills := tech_keywords.filter (fun skill => pyIn skill job_lower)
  let soft_skills := soft_keywords.filter (fun skill => pyIn skill job_lower)
  let resume_lower := pyLower profile.resume_text
  let matching_skills := technical_skills.filter (fun skill => pyIn skill resume_lower)
  let match_percentage : ℚ :=
    if technical_skills ≠ [] then
      (matching_skills.length : ℚ) / (technical_skills.length : ℚ) * 100
    else 50
  { job_id := pySlice job_context 50
    technical_skills := technical_skills
    soft_skills := soft_skills
    tools_technologies := technical_skills
    certifications := []
    overall_match_score := match_percentage
    skills_match_score := match_percentage
    experience_match_score := 50
    missing_skills := technical_skills.filter (fun s => ¬ s ∈ matching_skills)
    matching_skills := matching_skills
    recommendations := ["Review job requirements carefully", "Tailor your resume to match"]
    ai_summary := "Job analysis unavailable"
    ai_fit_assessment := "Basic analysis only"
    interview_tips := ["Research the company", "Prepare examples of your work"] }

/-- The `JobAnalysis(...)` constructor call of the AI tiers, including the
pydantic `ge=0, le=100` validation of the three score fields; an
out-of-range score raises inside the tier (here: `.error`). -/
def mkJobAnalysis (job_context : String) (r : RawAnalysis) : Except String JobAnalysis :=
  if 0 ≤ r.overall_match_score ∧ r.overall_match_score ≤ 100 ∧
     0 ≤ r.skills_match_score ∧ r.skills_match_score ≤ 100 ∧
     0 ≤ r.experience_match_score ∧ r.experience_match_score ≤ 100 then
    .ok { job_id := pySlice job_context 50
          technical_skills := r.technical_skills
          soft_skills := r.soft_skills
          tools_technologies := r.tools_technologies
          certifications := r.certifications
          overall_match_score := r.overall_match_score
          skills_match_score := r.skills_match_score
          experience_match_score := r.experience_match_score
          missing_skills := r.missing_skills
          matching_skills := r.matching_skills
          recommendations := r.recommendations
          ai_summary := r.ai_summary
          ai_fit_assessment := r.ai_fit_assessment
          interview_tips := r.interview_tips }
  else .error "ValidationError"

/-- `ResumeMatcherService._analyze_with_openai`: any failure (transport, JSON,
validation) is caught and degrades to the heuristic tier. -/
def analyze_with_openai (resp : ProviderResponse) (profile : ResumeProfile)
    (job_context : String) : JobAnalysis :=
  match resp with
  | .ok r =>
    match mkJobAnalysis job_context r with
    | .ok a => a
    | .error _ => create_basic_analysis profile job_context
  | .error _ => create_basic_analysis profile job_context

/-- `ResumeMatcherService._analyze_with_groq`: any failure falls back to the
OpenAI tier (the OpenAI client is always constructed, hence truthy). -/
def analyze_with_groq (groq_resp openai_resp : ProviderResponse)
    (profile : ResumeProfile) (job_context : String) : JobAnalysis :=
  match groq_resp with
  | .ok r =>
    match mkJobAnalysis job_context r with
    | .ok a => a
    | .error _ => analyze_with_openai openai_resp profile job_context
  | .error _ => analyze_with_openai openai_resp profile job_context

/-- `ResumeMatcherService.analyze_job_fit`: choose the tier chain by Groq
availability, then mutate the listing (`resume_match_score`, `keywords`,
`skills`) and return the analysis; the enclosing `except: raise` makes the
result an `Except`. -/
def analyze_job_fit (groq_available : Bool) (groq_resp openai_resp : ProviderResponse)
    (profile : ResumeProfile) (job : JobListing) :
    Except String (JobAnalysis × JobListing) :=
  let job_context := prepare_job_context profile job
  let analysis :=
    if groq_available then analyze_with_groq groq_resp openai_resp profile job_context
    else analyze_with_openai openai_resp profile job_context
  .ok (analysis,
    { job with
      resume_match_score := some analysis.overall_match_score
      keywords := analysis.technical_skills ++ analysis.soft_skills
      skills := analysis.technical_skills })

/-! Regex fragments of `_extract_years_as_level`, hand-compiled.  Each `patN`
recognises pattern N of the source list at the start of a character list and
returns the captured group 1; `reSearch` gives `re.search` semantics (leftmost
starting position).  Greedy `\d+`/`\s*` and committed optional pieces agree
with backtracking here because every optional piece is followed by material
that cannot begin with the characters the optional piece consumes. -/

/-- Greedy `(\d+)`: one or more digits and their numeric value. -/
def chompDigits (cs : List Char) : Option (Nat × List Char) :=
  match cs.takeWhile Char.isDigit with
  | [] => none
  | ds => some (ds.foldl (fun n c => n * 10 + (c.toNat - 48)) 0,
                cs.dropWhile Char.isDigit)

/-- A literal fragment. -/
def chompLit (lit : String) (cs : List Char) : Option (List Char) :=
  if lit.data.isPrefixOf cs then some (cs.drop lit.data.length) else none

/-- Greedy `\s*`. -/
def ws0 (cs : List Char) : List Char := cs.dropWhile Char.isWhitespace

/-- An optional single character (`\+?`, `s?`). -/
def optChar (c : Char) (cs : List Char) : List Char :=
  match cs with
  | x :: rest => if x = c then rest else cs
  | [] => cs

/-- `(?:of\s*)?`. -/
def optOf (cs : List Char) : List Char :=
  match chompLit "of" cs with
  | some rest => ws0 rest
  | none => cs

/-- `(?:experience|exp)` as a final fragment. -/
def expWord (cs : List Char) : Bool :=
  (chompLit "experience" cs).isSome || (chompLit "exp" cs).isSome

/-- Pattern 1: `(\d+)\+?\s*years?\s*(?:of\s*)?(?:experience|exp)`. -/
def pat1 (cs : List Char) : Option Nat := do
  let (n, cs) ← chompDigits cs
  let cs := ws0 (optChar '+' cs)
  let cs ← chompLit "year" cs
  let cs := optOf (ws0 (optChar 's' cs))
  if expWord cs then some n else none

/-- Pattern 2: `(\d+)\s*-\s*(\d+)\s*years?\s*(?:of\s*)?(?:experience|exp)`
(source comment: take lower bound). -/
def pat2 (cs : List Char) : Option Nat := do
  let (n, cs) ← chompDigits cs
  let cs ← chompLit "-" (ws0 cs)
  let (_, cs) ← chompDigits (ws0 cs)
  let cs ← chompLit "year" (ws0 cs)
  let cs := optOf (ws0 (optChar 's' cs))
  if expWord cs then some n else none

/-- Pattern 3: `minimum\s*(?:of\s*)?(\d+)\s*years?`. -/
def pat3 (cs : List Char) : Option Nat := do
  let cs ← chompLit "minimum" cs
  let (n, cs) ← chompDigits (optOf (ws0 cs))
  let cs ← chompLit "year" (ws0 cs)
  let _ := optChar 's' cs
  some n

/-- Pattern 4: `at\s*least\s*(\d+)\s*years?`. -/
def pat4 (cs : List Char) : Option Nat := do
  let cs ← chompLit "at" cs
  let cs ← chompLit "least" (ws0 cs)
  let (n, cs) ← chompDigits (ws0 cs)
  let cs ← chompLit "year" (ws0 cs)
  let _ := optChar 's' cs
  some n

/-- Pattern 5: `(\d+)\s*years?\s*minimum`. -/
def pat5 (cs : List Char) : Option Nat := do
  let (n, cs) ← chompDigits cs
  let cs ← chompLit "year" (ws0 cs)
  let cs := ws0 (optChar 's' cs)
  let _ ← chompLit "minimum" cs
  some n

/-- Pattern 6: `requires?\s*(\d+)\s*years?`. -/
def pat6 (cs : List Char) : Option Nat := do
  let cs ← chompLit "require" cs
  let (n, cs) ← chompDigits (ws0 (optChar 's' cs))
  let cs ← chompLit "year" (ws0 cs)
  let _ := optChar 's' cs
  some n

/-- Pattern 7: `(\d+)\s*years?\s*required`. -/
def pat7 (cs : List Char) : Option Nat := do
  let (n, cs) ← chompDigits cs
  let cs ← chompLit "year" (ws0 cs)
  let cs := ws0 (optChar 's' cs)
  let _ ← chompLit "required" cs
  some n

/-- Pattern 8: `(\d+)\s*years?\s*preferred`. -/
def pat8 (cs : List Char) : Option Nat := do
  let (n, cs) ← chompDigits cs
  let cs ← chompLit "year" (ws0 cs)
  let cs := ws0 (optChar 's' cs)
  let _ ← chompLit "preferred" cs
  some n

/-- `re.search`: try the pattern at each start position, leftmost first. -/
def reSearch (m : List Char → Option Nat) : List Char → Option Nat
  | [] => m []
  | c :: rest =>
    match m (c :: rest) with
    | some n => some n
    | none => reSearch m rest

/-- The entry-level indicator phrases of `_extract_years_as_level`. -/
def entryTerms : List String :=
  ["entry level", "entry-level", "0-2 years", "fresh graduate", "new graduate"]

/-- `LinkedInScraperPlaywright._extract_years_as_level`: search the ordered
pattern list over the lowercased text, returning the first (by pattern
order) group-1 value; failing that, entry-level phrases give 0; else null. -/
def extract_years_as_level (text : String) : Option Nat :=
  let cs := (pyLower text).data
  (reSearch pat1 cs).orElse fun _ =>
  (reSearch pat2 cs).orElse fun _ =>
  (reSearch pat3 cs).orElse fun _ =>
  (reSearch pat4 cs).orElse fun _ =>
  (reSearch pat5 cs).orElse fun _ =>
  (reSearch pat6 cs).orElse fun _ =>
  (reSearch pat7 cs).orElse fun _ =>
  (reSearch pat8 cs).orElse fun _ =>
  if entryTerms.any (fun t => isInfixL t.data cs) then some 0 else none

/-- The years → experience-level ladder of
`_parse_requirements_and_experience`. -/
def expLevelOfYears (years_num : Nat) : String :=
  if years_num ≤ 2 then "entry"
  else if years_num ≤ 5 then "associate"
  else if years_num ≤ 8 then "mid-senior"
  else if years_num ≤ 12 then "director"
  else "executive"

/-- `the re.sub stripping the leading bullet/number prefix class from line.strip()`. -/
def cleanBullet (line : String) : String :=
  ⟨(pyStrip line).data.dropWhile (fun c =>
    c.isWhitespace || c = '•' || c = '-' || c = '*' || c.isDigit || c = '.')⟩

/-- Section-opening keywords of the requirements loop. -/
def reqOpenKeywords : List String :=
  ["requirements:", "qualifications:", "must have:", "required:"]

/-- Section-closing keywords of the requirements loop. -/
def reqCloseKeywords : List String :=
  ["responsibilities:", "benefits:", "nice to have:", "preferred:"]

/-- The line loop of `_parse_requirements_and_experience`: an `elif` chain over
each line with the `in_requirements` flag, collecting cleaned lines longer
than 10 characters and breaking at 5 collected requirements. -/
def reqLoop : List String → List String → Bool → List String
  | [], requirements, _ => requirements
  | line :: rest, requirements, in_requirements =>
    let line_lower := pyStrip (pyLower line)
    if reqOpenKeywords.any (fun k => pyIn k line_lower) then
      reqLoop rest requirements true
    else if reqCloseKeywords.any (fun k => pyIn k line_lower) then
      reqLoop rest requirements false
    else if in_requirements ∧ pyStrip line ≠ "" then
      let cleaned := cleanBullet line
      if cleaned ≠ "" ∧ cleaned.length > 10 then
        let requirements := requirements ++ [cleaned]
        if requirements.length ≥ 5 then requirements
        else reqLoop rest requirements in_requirements
      else reqLoop rest requirements in_requirements
    else reqLoop rest requirements in_requirements

/-- `LinkedInScraperPlaywright._parse_requirements_and_experience`.  After the
loop, line 602 evaluates the membership test of the bachelor marker in `desc_lower`, but `desc_lower` is
never bound in this function (it is a local of
`_extract_skills_from_full_description`), so Python raises `NameError`
before anything is returned, on every input. -/
def parse_requirements_and_experience (description : String) :
    Except String (List String × Option String × Option Nat) :=
  let years_num := extract_years_as_level description
  let _exp_level : Option String := years_num.map expLevelOfYears
  let requirements0 := match years_num with
    | some n => [toString n ++ "+ years of experience required"]
    | none => []
  let _requirements := reqLoop (description.splitOn "\n") requirements0 false
  Except.error "NameError: name desc_lower is not defined"

/-! Concrete inputs used to instantiate the theorems below. -/

/-- A plain scraped listing. -/
def jobA : JobListing :=
  { job_id := "job123", title := "Engineer", company := "Acme",
    location := "NYC", scraped_at := ⟨"2025-01-15", "10:00:00"⟩ }

/-- A profile whose resume mentions two of the four technical skills of the
context used alongside it. -/
def profB : ResumeProfile := ⟨"python sql contact", []⟩

/-- An empty candidate profile. -/
def profC10 : ResumeProfile := ⟨"", []⟩

/-- A listing whose `job_id` was chosen to be exactly the first 50 characters
of the job context its own fields render to. -/
def jobC10 : JobListing :=
  { job_id := "\n        JOB DETAILS:\n        Title: SoftwareEngin",
    title := "SoftwareEngineerX", company := "Acme", location := "NYC" }

/-- A listing with an ordinary short `job_id`. -/
def jobShort : JobListing :=
  { job_id := "abc", title := "T", company := "C", location := "L" }

/-- Round-one listing for the double-update scenario. -/
def jl1c : JobListing :=
  { job_id := "dup1", title := "Title One", company := "Acme",
    location := "NYC", description := "round one description" }

/-- Round-two listing: same identifier, new title, empty description. -/
def jl2c : JobListing :=
  { job_id := "dup1", title := "Title Two", company := "Acme",
    location := "NYC", description := "" }

/-- A stored row as produced by inserting `jl1c`. -/
def storedC : StoredJob := newStoredJob jl1c 3

/-- A stored row carrying a nonzero match score. -/
def storedScore : StoredJob :=
  newStoredJob { job_id := "s1", title := "T", company := "C", location := "L",
                 resume_match_score := some 77 } 1

/-- An incoming listing whose match score is exactly 0. -/
def incZero : JobListing :=
  { job_id := "s1", title := "T2", company := "C", location := "L",
    resume_match_score := some 0 }

/-! Helper lemmas shared by the claim theorems. -/

/-- The length of a Python slice `s[:n]`. -/
theorem pySlice_length (s : String) (n : Nat) :
    (pySlice s n).length = min n s.length := by
  rw [pySlice, String.mk_length, List.length_take, String.length_data]

/-- The rendered job context is at least 55 characters long, whatever the job
fields are: already its first two literal fragments contribute 55. -/
theorem ctx_length_ge (profile : ResumeProfile) (job : JobListing) :
    55 ≤ (prepare_job_context profile job).length := by
  simp only [prepare_job_context, String.length_append]
  have h1 : ("\n        JOB DETAILS:\n        Title: " : String).length = 37 := by decide
  have h2 : ("\n        Company: " : String).length = 18 := by decide
  omega

/-- A validated analysis carries the context prefix as its identifier. -/
theorem mkJobAnalysis_ok_job_id {job_context : String} {r : RawAnalysis}
    {a : JobAnalysis} (h : mkJobAnalysis job_context r = .ok a) :
    a.job_id = pySlice job_context 50 := by
  by_cases hc : 0 ≤ r.overall_match_score ∧ r.overall_match_score ≤ 100 ∧
      0 ≤ r.skills_match_score ∧ r.skills_match_score ≤ 100 ∧
      0 ≤ r.experience_match_score ∧ r.experience_match_score ≤ 100
  · unfold mkJobAnalysis at h
    rw [if_pos hc, Except.ok.injEq] at h
    rw [← h]
  · unfold mkJobAnalysis at h
    rw [if_neg hc] at h
    cases h

/-- A validated analysis has its overall score inside `[0, 100]`. -/
theorem mkJobAnalysis_ok_range {job_context : String} {r : RawAnalysis}
    {a : JobAnalysis} (h : mkJobAnalysis job_context r = .ok a) :
    0 ≤ a.overall_match_score ∧ a.overall_match_score ≤ 100 := by
  by_cases hc : 0 ≤ r.overall_match_score ∧ r.overall_match_score ≤ 100 ∧
      0 ≤ r.skills_match_score ∧ r.skills_match_score ≤ 100 ∧
      0 ≤ r.experience_match_score ∧ r.experience_match_score ≤ 100
  · unfold mkJobAnalysis at h
    rw [if_pos hc, Except.ok.injEq] at h
    rw [← h]
    exact ⟨hc.1, hc.2.1⟩
  · unfold mkJobAnalysis at h
    rw [if_neg hc] at h
    cases h

/-- Unfolding: the OpenAI tier on a failed response. -/
theorem analyze_with_openai_err (e : String) (profile : ResumeProfile)
    (job_context : String) :
    analyze_with_openai (.error e) profile job_context =
      create_basic_analysis profile job_context := rfl

/-- Unfolding: the OpenAI tier on a parsed response. -/
theorem analyze_with_openai_ok (r : RawAnalysis) (profile : ResumeProfile)
    (job_context : String) :
    analyze_with_openai (.ok r) profile job_context =
      (match mkJobAnalysis job_context r with
       | .ok a => a
       | .error _ => create_basic_analysis profile job_context) := rfl

/-- Unfolding: the Groq tier on a failed response. -/
theorem analyze_with_groq_err (e : String) (openai_resp : ProviderResponse)
    (profile : ResumeProfile) (job_context : String) :
    analyze_with_groq (.error e) openai_resp profile job_context =
      analyze_with_openai openai_resp profile job_context := rfl

/-- Unfolding: the Groq tier on a parsed response. -/
theorem analyze_with_groq_ok (r : RawAnalysis) (openai_resp : ProviderResponse)
    (profile : ResumeProfile) (job_context : String) :
    analyze_with_groq (.ok r) openai_resp profile job_context =
      (match mkJobAnalysis job_context r with
       | .ok a => a
       | .error _ => analyze_with_openai openai_resp profile job_context) := rfl

/-- Unfolding: the identifier of the heuristic analysis is the 50-character
context prefix. -/
theorem create_basic_analysis_job_id (profile : ResumeProfile) (job_context : String) :
    (create_basic_analysis profile job_context).job_id = pySlice job_context 50 := rfl

/-- Unfolding: the overall score of the heuristic analysis. -/
theorem create_basic_analysis_overall_eq (profile : ResumeProfile) (job_context : String) :
    (create_basic_analysis profile job_context).overall_match_score =
      (if tech_keywords.filter (fun skill => pyIn skill (pyLower job_context)) ≠ [] then
        (((tech_keywords.filter (fun skill => pyIn skill (pyLower job_context))).filter
            (fun skill => pyIn skill (pyLower profile.resume_text))).length : ℚ) /
          ((tech_keywords.filter (fun skill => pyIn skill (pyLower job_context))).length : ℚ)
          * 100
       else 50) := rfl

/-- The overall score of the heuristic scorer is inside `[0, 100]`. -/
theorem create_basic_analysis_range (profile : ResumeProfile) (job_context : String) :
    0 ≤ (create_basic_analysis profile job_context).overall_match_score ∧
      (create_basic_analysis profile job_context).overall_match_score ≤ 100 := by
  rw [create_basic_analysis_overall_eq]
  split
  next hne =>
    set tech := tech_keywords.filter (fun skill => pyIn skill (pyLower job_context)) with htech
    set matching := tech.filter
      (fun skill => pyIn skill (pyLower profile.resume_text)) with hmatch
    have hle : matching.length ≤ tech.length := List.length_filter_le _ _
    have hpos : 0 < tech.length := List.length_pos.mpr hne
    have hleQ : (matching.length : ℚ) ≤ (tech.length : ℚ) := by exact_mod_cast hle
    have hposQ : (0 : ℚ) < (tech.length : ℚ) := by exact_mod_cast hpos
    constructor
    · positivity
    · calc (matching.length : ℚ) / (tech.length : ℚ) * 100
          ≤ 1 * 100 := by
            apply mul_le_mul_of_nonneg_right _ (by norm_num)
            rw [div_le_one hposQ]
            exact hleQ
        _ = 100 := by norm_num
  next => norm_num

/-- The result of the OpenAI tier is either the validated provider analysis or the
heuristic analysis; in both cases the overall score is inside `[0, 100]`. -/
theorem analyze_with_openai_range (resp : ProviderResponse)
    (profile : ResumeProfile) (job_context : String) :
    0 ≤ (analyze_with_openai resp profile job_context).overall_match_score ∧
      (analyze_with_openai resp profile job_context).overall_match_score ≤ 100 := by
  cases resp with
  | error e =>
    rw [analyze_with_openai_err]
    exact create_basic_analysis_range profile job_context
  | ok r =>
    rw [analyze_with_openai_ok]
    cases hm : mkJobAnalysis job_context r with
    | ok a => exact mkJobAnalysis_ok_range hm
    | error e => exact create_basic_analysis_range profile job_context

/-- Same bound for the Groq tier. -/
theorem analyze_with_groq_range (groq_resp openai_resp : ProviderResponse)
    (profile : ResumeProfile) (job_context : String) :
    0 ≤ (analyze_with_groq groq_resp openai_resp profile job_context).overall_match_score ∧
      (analyze_with_groq groq_resp openai_resp profile job_context).overall_match_score ≤ 100 := by
  cases groq_resp with
  | error e =>
    rw [analyze_with_groq_err]
    exact analyze_with_openai_range openai_resp profile job_context
  | ok r =>
    rw [analyze_with_groq_ok]
    cases hm : mkJobAnalysis job_context r with
    | ok a => exact mkJobAnalysis_ok_range hm
    | error e => exact analyze_with_openai_range openai_resp profile job_context

/-- Every OpenAI-tier result carries the 50-character context prefix as its
`job_id`. -/
theorem analyze_with_openai_job_id (resp : ProviderResponse)
    (profile : ResumeProfile) (job_context : String) :
    (analyze_with_openai resp profile job_context).job_id = pySlice job_context 50 := by
  cases resp with
  | error e =>
    rw [analyze_with_openai_err]
    exact create_basic_analysis_job_id profile job_context
  | ok r =>
    rw [analyze_with_openai_ok]
    cases hm : mkJobAnalysis job_context r with
    | ok a => exact mkJobAnalysis_ok_job_id hm
    | error e => exact create_basic_analysis_job_id profile job_context

/-- Every Groq-tier result carries the 50-character context prefix as its
`job_id`. -/
theorem analyze_with_groq_job_id (groq_resp openai_resp : ProviderResponse)
    (profile : ResumeProfile) (job_context : String) :
    (analyze_with_groq groq_resp openai_resp profile job_context).job_id =
      pySlice job_context 50 := by
  cases groq_resp with
  | error e =>
    rw [analyze_with_groq_err]
    exact analyze_with_openai_job_id openai_resp profile job_context
  | ok r =>
    rw [analyze_with_groq_ok]
    cases hm : mkJobAnalysis job_context r with
    | ok a => exact mkJobAnalysis_ok_job_id hm
    | error e => exact analyze_with_openai_job_id openai_resp profile job_context

/-- After `cache_analysis`, the first row for the key holds the new value with
`created_at` the call instant and `expires_at = now + expires_hours`,
whatever the prior store contents. -/
theorem cache_find_after_put (job_id analysis_type v : String) (now : ℚ)
    (expires_hours : ℕ) (store : List CacheEntry) :
    (cache_analysis job_id analysis_type v now expires_hours store).find?
        (cacheKeyMatch job_id analysis_type) =
      some ⟨job_id, analysis_type, v, now, now + expires_hours⟩ := by
  induction store with
  | nil =>
    simp [cache_analysis, List.find?, cacheKeyMatch]
  | cons e rest ih =>
    by_cases hk : cacheKeyMatch job_id analysis_type e = true
    · have hfields : e.job_id = job_id ∧ e.analysis_type = analysis_type := by
        simpa [cacheKeyMatch] using hk
      simp only [cache_analysis, hk, if_true]
      rw [List.find?]
      have hk2 : cacheKeyMatch job_id analysis_type
          { e with analysis_result := v, expires_at := now + expires_hours,
                   created_at := now } = true := by
        simp [cacheKeyMatch, hfields.1, hfields.2]
      rw [hk2]
      simp [hfields.1, hfields.2]
    · simp only [cache_analysis, hk, if_false, Bool.false_eq_true]
      rw [List.find?]
      rw [Bool.not_eq_true] at hk
      rw [hk]
      exact ih

/-! The claim theorems. -/

/-- C1: the claim says a second `add_job` with an already-logged `job_id`
appends no new row.  In the code, `to_list` emits no job-id cell at all (its
column A is the scrape date), while `check_duplicate` scans column A for the
job id, so the duplicate is never detected: re-adding `jobA` leaves the
duplicate check false and appends a third row (header plus two identical
data rows), and column A of the appended row holds the date, not the id. -/
theorem external_log_readds_existing_job :
    check_duplicate (sheets_add_job [sheetHeaders] jobA) jobA.job_id = false ∧
    ((GoogleSheetRow.from_job_listing jobA).to_list).head? =
      some (Cell.str "2025-01-15") ∧
    sheets_add_job (sheets_add_job [sheetHeaders] jobA) jobA =
      [sheetHeaders, (GoogleSheetRow.from_job_listing jobA).to_list,
       (GoogleSheetRow.from_job_listing jobA).to_list] := by
  refine ⟨by decide, rfl, ?_⟩
  decide

/-- C2: the claim says a batch holding the same unseen `job_id` twice yields
exactly one row for it.  `add_jobs_batch` filters only against the
pre-existing identifier set, not within the batch, so both copies are
appended: the batch `[jobA, jobA]` on a fresh sheet produces two identical
data rows. -/
theorem external_log_batch_appends_same_id_twice :
    add_jobs_batch [sheetHeaders] [jobA, jobA] =
      [sheetHeaders, (GoogleSheetRow.from_job_listing jobA).to_list,
       (GoogleSheetRow.from_job_listing jobA).to_list] := by
  decide

/-- C3: the claim says the requirements/experience/degree parser never raises.
The degree-marker check at line 602 reads `desc_lower`, a name never bound
in `_parse_requirements_and_experience`, so the function raises `NameError`
on every input instead of returning. -/
theorem parse_requirements_always_raises (description : String) :
    parse_requirements_and_experience description =
      Except.error "NameError: name desc_lower is not defined" := rfl

/-- C4: the claim says a lone range phrase `N - M years experience` yields the
lower bound N.  Pattern 1 (`(\d+)\+?\s*years?\s*(?:of\s*)?(?:experience|exp)`)
already matches the suffix `5 years experience` of `3 - 5 years experience`
and wins by pattern order, so the code returns the upper bound 5; the
dedicated range pattern 2 would have returned 3 but is shadowed. -/
theorem years_range_returns_upper_bound :
    extract_years_as_level "3 - 5 years experience" = some 5 ∧
    reSearch pat2 (pyLower "3 - 5 years experience").data = some 3 := by
  constructor
  · decide
  · decide

/-- Unfolding: the skills score of the heuristic analysis. -/
theorem create_basic_analysis_skills_eq (profile : ResumeProfile) (job_context : String) :
    (create_basic_analysis profile job_context).skills_match_score =
      (if tech_keywords.filter (fun skill => pyIn skill (pyLower job_context)) ≠ [] then
        (((tech_keywords.filter (fun skill => pyIn skill (pyLower job_context))).filter
            (fun skill => pyIn skill (pyLower profile.resume_text))).length : ℚ) /
          ((tech_keywords.filter (fun skill => pyIn skill (pyLower job_context))).length : ℚ)
          * 100
       else 50) := rfl

/-- Unfolding: the matching skills of the heuristic analysis. -/
theorem create_basic_analysis_matching_eq (profile : ResumeProfile) (job_context : String) :
    (create_basic_analysis profile job_context).matching_skills =
      (tech_keywords.filter (fun skill => pyIn skill (pyLower job_context))).filter
        (fun skill => pyIn skill (pyLower profile.resume_text)) := rfl

/-- Unfolding: the job identifier carried by the analysis of `analyze_job_fit` is
that of the tier the availability flag selects. -/
theorem analyze_job_fit_job_id_eq (groq_available : Bool)
    (groq_resp openai_resp : ProviderResponse) (profile : ResumeProfile)
    (job : JobListing) :
    (analyze_job_fit groq_available groq_resp openai_resp profile job).toOption.map
        (fun p => p.1.job_id) =
      some ((if groq_available then
              analyze_with_groq groq_resp openai_resp profile (prepare_job_context profile job)
             else
              analyze_with_openai openai_resp profile (prepare_job_context profile job)).job_id) := rfl

/-- C5: `analyze_job_fit` always returns a `JobAnalysis` (an `.ok` result, with
its overall score inside `[0, 100]`), never propagating a provider error:
each AI tier catches its own failure and falls through, and when both
provider responses fail the result is exactly the deterministic heuristic
analysis, which is total. -/
theorem analyze_job_fit_total (groq_available : Bool)
    (groq_resp openai_resp : ProviderResponse) (profile : ResumeProfile)
    (job : JobListing) :
    (∃ a job2, analyze_job_fit groq_available groq_resp openai_resp profile job =
        .ok (a, job2) ∧ 0 ≤ a.overall_match_score ∧ a.overall_match_score ≤ 100) ∧
    (∀ e1 e2, groq_resp = .error e1 → openai_resp = .error e2 →
      ∃ job2, analyze_job_fit groq_available groq_resp openai_resp profile job =
        .ok (create_basic_analysis profile (prepare_job_context profile job), job2)) := by
  constructor
  · refine ⟨_, _, rfl, ?_⟩
    cases groq_available with
    | false =>
      rw [if_neg (by simp)]
      exact analyze_with_openai_range openai_resp profile (prepare_job_context profile job)
    | true =>
      rw [if_pos rfl]
      exact analyze_with_groq_range groq_resp openai_resp profile
        (prepare_job_context profile job)
  · rintro e1 e2 rfl rfl
    cases groq_available with
    | false => exact ⟨_, rfl⟩
    | true => exact ⟨_, rfl⟩

/-- Witness for C5 at concrete inputs: with Groq unavailable and the OpenAI
call failing, the pipeline returns the heuristic analysis. -/
theorem analyze_job_fit_total_witness :
    ∃ job2, analyze_job_fit false (.error "transport") (.error "transport2") profB jobA =
      .ok (create_basic_analysis profB (prepare_job_context profB jobA), job2) :=
  (analyze_job_fit_total false (.error "transport") (.error "transport2") profB jobA).2
    "transport" "transport2" rfl rfl

/-- C6: the heuristic scorer returns `experience_match_score = 50`, equal
overall and skills scores, `matching_skills` the vocabulary skills found in
the job text that also occur in the resume text, and the score
`|matching| / |technical skills in job| × 100` (50 when the job text has no
vocabulary technical skill); with exactly 4 job-text vocabulary skills of
which the resume has 2, the score is 50 and `matching_skills` has
length 2. -/
theorem heuristic_scorer_spec (profile : ResumeProfile) (job_context : String) :
    (create_basic_analysis profile job_context).experience_match_score = 50 ∧
    (create_basic_analysis profile job_context).overall_match_score =
      (create_basic_analysis profile job_context).skills_match_score ∧
    (create_basic_analysis profile job_context).matching_skills =
      (tech_keywords.filter (fun skill => pyIn skill (pyLower job_context))).filter
        (fun skill => pyIn skill (pyLower profile.resume_text)) ∧
    (tech_keywords.filter (fun skill => pyIn skill (pyLower job_context)) = [] →
      (create_basic_analysis profile job_context).skills_match_score = 50) ∧
    (tech_keywords.filter (fun skill => pyIn skill (pyLower job_context)) ≠ [] →
      (create_basic_analysis profile job_context).skills_match_score =
        (((tech_keywords.filter (fun skill => pyIn skill (pyLower job_context))).filter
            (fun skill => pyIn skill (pyLower profile.resume_text))).length : ℚ) /
          ((tech_keywords.filter (fun skill => pyIn skill (pyLower job_context))).length : ℚ)
          * 100) ∧
    ((tech_keywords.filter (fun skill => pyIn skill (pyLower job_context))).length = 4 →
      ((tech_keywords.filter (fun skill => pyIn skill (pyLower job_context))).filter
          (fun skill => pyIn skill (pyLower profile.resume_text))).length = 2 →
      (create_basic_analysis profile job_context).skills_match_score = 50 ∧
      (create_basic_analysis profile job_context).matching_skills.length = 2) := by
  refine ⟨rfl, rfl, create_basic_analysis_matching_eq profile job_context, ?_, ?_, ?_⟩
  · intro h
    rw [create_basic_analysis_skills_eq, if_neg (by simp [h])]
  · intro h
    rw [create_basic_analysis_skills_eq, if_pos h]
  · intro h4 h2
    have hne : tech_keywords.filter (fun skill => pyIn skill (pyLower job_context)) ≠ [] := by
      intro he
      rw [he] at h4
      simp at h4
    constructor
    · rw [create_basic_analysis_skills_eq, if_pos hne, h4, h2]
      norm_num
    · rw [create_basic_analysis_matching_eq, h2]

/-- Witness for C6 at concrete inputs: the job text mentions exactly python,
react, sql and docker; the resume mentions python and sql. -/
theorem heuristic_scorer_spec_witness :
    (create_basic_analysis profB "python react sql docker").skills_match_score = 50 ∧
    (create_basic_analysis profB "python react sql docker").matching_skills.length = 2 :=
  (heuristic_scorer_spec profB "python react sql docker").2.2.2.2.2
    (by decide) (by decide)

/-- C7: the primary-store merge overwrites `title` with the incoming title,
keeps `description`, `requirements`, `qualifications`, `salary_range`,
`applicants_count`, `resume_match_score`, `keywords` and `skills` when the
incoming value is empty/absent, always refreshes `last_updated`, and two
successive `add_job` calls with the same `job_id` leave the second title and
the round-one description when the second description is empty. -/
theorem primary_store_merge (stored : StoredJob) (incoming j1 j2 : JobListing)
    (now t1 t2 : Nat) :
    (incoming.title ≠ "" → (update_job stored incoming now).title = incoming.title) ∧
    (incoming.description = "" →
      (update_job stored incoming now).description = stored.description) ∧
    (incoming.requirements = [] →
      (update_job stored incoming now).requirements = stored.requirements) ∧
    (incoming.qualifications = [] →
      (update_job stored incoming now).qualifications = stored.qualifications) ∧
    (incoming.salary_range = none ∨ incoming.salary_range = some "" →
      (update_job stored incoming now).salary_range = stored.salary_range) ∧
    (incoming.applicants_count = none ∨ incoming.applicants_count = some "" →
      (update_job stored incoming now).applicants_count = stored.applicants_count) ∧
    (incoming.resume_match_score = none →
      (update_job stored incoming now).resume_match_score = stored.resume_match_score) ∧
    (incoming.keywords = [] →
      (update_job stored incoming now).keywords = stored.keywords) ∧
    (incoming.skills = [] →
      (update_job stored incoming now).skills = stored.skills) ∧
    (update_job stored incoming now).last_updated = now ∧
    (j2.job_id = j1.job_id → j1.title ≠ "" → j2.title ≠ "" → j2.description = "" →
      db_add_job j2 t2 (db_add_job j1 t1 []) = [update_job (newStoredJob j1 t1) j2 t2] ∧
      (update_job (newStoredJob j1 t1) j2 t2).title = j2.title ∧
      (update_job (newStoredJob j1 t1) j2 t2).description = j1.description) := by
  refine ⟨fun _ => rfl, ?_, ?_, ?_, ?_, ?_, ?_, ?_, ?_, rfl, ?_⟩
  · intro h
    simp [update_job, pyOrStr, h]
  · intro h
    simp [update_job, pyOrList, h]
  · intro h
    simp [update_job, pyOrList, h]
  · rintro (h | h) <;> simp [update_job, pyOrOptStr, h]
  · rintro (h | h) <;> simp [update_job, pyOrOptStr, h]
  · intro h
    simp [update_job, pyOrScore, h]
  · intro h
    simp [update_job, pyOrList, h]
  · intro h
    simp [update_job, pyOrList, h]
  · intro hid _h1 _h2 hd
    refine ⟨?_, rfl, ?_⟩
    · simp [db_add_job, newStoredJob, hid]
    · simp [update_job, pyOrStr, hd, newStoredJob]

/-- Witness for C7 at concrete inputs: inserting `jl1c` then merging `jl2c`
(same id, new non-empty title, empty description). -/
theorem primary_store_merge_witness :
    db_add_job jl2c 7 (db_add_job jl1c 3 []) = [update_job (newStoredJob jl1c 3) jl2c 7] ∧
    (update_job (newStoredJob jl1c 3) jl2c 7).title = jl2c.title ∧
    (update_job (newStoredJob jl1c 3) jl2c 7).description = jl1c.description :=
  (primary_store_merge storedC jl2c jl1c jl2c 0 3 7).2.2.2.2.2.2.2.2.2.2
    (by decide) (by decide) (by decide) (by decide)

/-- Unfolding: a `get` right after a `put` sees the fresh entry and applies
the lazy-expiry test to it. -/
theorem get_after_put (store : List CacheEntry) (job_id analysis_type v : String)
    (t : ℚ) (expires_hours : ℕ) (now : ℚ) :
    get_cached_analysis (cache_analysis job_id analysis_type v t expires_hours store)
        job_id analysis_type now =
      if now < t + expires_hours then some v else none := by
  unfold get_cached_analysis
  rw [cache_find_after_put]

/-- C8: `put` then `get` with no delay and positive TTL returns the value;
`put` with TTL 0 then `get` after any positive delay behaves as absent
(lazy expiry); and `put` unconditionally overwrites the entry for the key,
resetting `expires_at` from the call time. -/
theorem cache_ttl_semantics (store : List CacheEntry)
    (job_id analysis_type v v2 : String) (t t2 d : ℚ) (h h2 : ℕ) :
    (0 < h → get_cached_analysis (cache_analysis job_id analysis_type v t h store)
        job_id analysis_type t = some v) ∧
    (0 < d → get_cached_analysis (cache_analysis job_id analysis_type v t 0 store)
        job_id analysis_type (t + d) = none) ∧
    (cache_analysis job_id analysis_type v2 t2 h2
        (cache_analysis job_id analysis_type v t h store)).find?
          (cacheKeyMatch job_id analysis_type) =
      some ⟨job_id, analysis_type, v2, t2, t2 + h2⟩ := by
  refine ⟨?_, ?_, cache_find_after_put _ _ _ _ _ _⟩
  · intro hh
    rw [get_after_put, if_pos]
    have hq : (0 : ℚ) < (h : ℚ) := by exact_mod_cast hh
    linarith
  · intro hd
    rw [get_after_put, if_neg]
    push_cast
    linarith

/-- Witness for C8 at concrete inputs. -/
theorem cache_ttl_semantics_witness :
    get_cached_analysis (cache_analysis "j1" "resume_match" "r1" 0 24 [])
        "j1" "resume_match" 0 = some "r1" ∧
    get_cached_analysis (cache_analysis "j1" "resume_match" "r1" 0 0 [])
        "j1" "resume_match" (0 + 1) = none :=
  ⟨(cache_ttl_semantics [] "j1" "resume_match" "r1" "r2" 0 2 1 24 5).1 (by norm_num),
   (cache_ttl_semantics [] "j1" "resume_match" "r1" "r2" 0 2 1 24 5).2.1 (by norm_num)⟩

/-- C9: the merge tests Python truthiness, not presence: an incoming
`resume_match_score` equal to 0 — a valid value of the declared [0,100]
range — is treated like an absent one, keeping the stored score. -/
theorem zero_score_keeps_stored (stored : StoredJob) (incoming : JobListing)
    (now : Nat) (h : incoming.resume_match_score = some 0) :
    (update_job stored incoming now).resume_match_score =
      stored.resume_match_score := by
  simp [update_job, pyOrScore, h]

/-- Witness for C9 at concrete inputs: merging an incoming score of 0 onto a
stored score of 77 keeps 77. -/
theorem zero_score_keeps_stored_witness :
    (update_job storedScore incZero 9).resume_match_score =
      storedScore.resume_match_score :=
  zero_score_keeps_stored storedScore incZero 9 (by decide)

/-- C10 counterexample: the claim says the analysis `job_id` differs from the
own `job_id` of every job; a job whose `job_id` is chosen as exactly the
first 50 characters of its rendered context makes them equal. -/
theorem analysis_job_id_collision :
    (analyze_job_fit false (.error "e") (.error "e2") profC10 jobC10).toOption.map
        (fun p => p.1.job_id) = some jobC10.job_id := by
  decide

/-- C10 (amended): every tier stamps the analysis with the first 50 characters
of the rendered job-context prompt as `job_id`, so the analysis returned by
`analyze_job_fit` carries that prefix and differs from the own `job_id` of the job whenever that `job_id` does not have length 50 (in particular
for every `job_id` that is not itself such a prompt prefix). -/
theorem analysis_job_id_is_context_head (groq_available : Bool)
    (groq_resp openai_resp : ProviderResponse) (profile : ResumeProfile)
    (job : JobListing) (hlen : job.job_id.length ≠ 50) :
    (create_basic_analysis profile (prepare_job_context profile job)).job_id =
      pySlice (prepare_job_context profile job) 50 ∧
    (analyze_with_openai openai_resp profile (prepare_job_context profile job)).job_id =
      pySlice (prepare_job_context profile job) 50 ∧
    (analyze_with_groq groq_resp openai_resp profile (prepare_job_context profile job)).job_id =
      pySlice (prepare_job_context profile job) 50 ∧
    (analyze_job_fit groq_available groq_resp openai_resp profile job).toOption.map
        (fun p => p.1.job_id) =
      some (pySlice (prepare_job_context profile job) 50) ∧
    (∀ s, (analyze_job_fit groq_available groq_resp openai_resp profile job).toOption.map
        (fun p => p.1.job_id) = some s → s ≠ job.job_id) := by
  have hpre : (pySlice (prepare_job_context profile job) 50).length = 50 := by
    rw [pySlice_length]
    have := ctx_length_ge profile job
    omega
  have hanalyze : (analyze_job_fit groq_available groq_resp openai_resp profile job).toOption.map
      (fun p => p.1.job_id) = some (pySlice (prepare_job_context profile job) 50) := by
    rw [analyze_job_fit_job_id_eq]
    cases groq_available with
    | false =>
      rw [if_neg (by simp)]
      exact congrArg some (analyze_with_openai_job_id openai_resp profile
        (prepare_job_context profile job))
    | true =>
      rw [if_pos rfl]
      exact congrArg some (analyze_with_groq_job_id groq_resp openai_resp profile
        (prepare_job_context profile job))
  refine ⟨create_basic_analysis_job_id profile (prepare_job_context profile job),
    analyze_with_openai_job_id openai_resp profile (prepare_job_context profile job),
    analyze_with_groq_job_id groq_resp openai_resp profile (prepare_job_context profile job),
    hanalyze, ?_⟩
  intro s hs he
  rw [hanalyze] at hs
  have hsp : pySlice (prepare_job_context profile job) 50 = s := Option.some.inj hs
  apply hlen
  rw [← he, ← hsp]
  exact hpre

/-- Witness for the amended C10 at concrete inputs: a 3-character `job_id`
never equals the 50-character context prefix. -/
theorem analysis_job_id_head_witness :
    (create_basic_analysis profC10 (prepare_job_context profC10 jobShort)).job_id =
      pySlice (prepare_job_context profC10 jobShort) 50 ∧
    (∀ s, (analyze_job_fit true (.error "x") (.error "y") profC10 jobShort).toOption.map
        (fun p => p.1.job_id) = some s → s ≠ jobShort.job_id) := by
  have h := analysis_job_id_is_context_head true (.error "x") (.error "y")
    profC10 jobShort (by decide)
  exact ⟨h.1, h.2.2.2.2⟩

end LinkedInAuto
